import Mathlib

/-!
Verification development for the Jumia scraping pipeline
(`Jumia_scrapper2.py`, class `EnhancedJumiaScraper`).

The Python code is shallowly embedded as executable Lean definitions:

* Python `float` values are modelled as exact rationals (`Rat`).  All
  rational arithmetic is written with the helpers `qAdd`, `qSub`, `qMul`,
  `qDiv` (exact fraction arithmetic through `Rat.divInt`), which are proved
  equal to the standard `Rat` operations (`qAdd_eq` &c.); this keeps every
  definition evaluable by `decide`.
* Python strings are `String`; `str.strip`, `str.upper`, `str.lower`,
  `str.replace(old, "")`, slicing `[:n]`, and substring tests are modelled
  character-wise on `String.data` (ASCII case mapping, which covers every
  constant the program uses).
* Python `round(x, 2)` (round-half-to-even to two decimals) is `pyRound2`.
* The DOM layer (`query_selector` results, `inner_text`, `get_attribute`)
  is abstracted to a `Fragment` of optional raw strings, and page fetching
  to a function `String → Nat → FetchResult`, exactly the boundary the
  code's `try/except` structure isolates.
* Wall-clock timestamp fields of a product record are omitted: no claim
  mentions them and they are pure environment reads.
-/

set_option maxRecDepth 100000
set_option maxHeartbeats 1000000
set_option linter.unusedVariables false

/-! ## Exact rational arithmetic helpers -/

/-- Exact rational addition via `Rat.divInt` (kernel-evaluable form of `+`). -/
def qAdd (a b : Rat) : Rat := Rat.divInt (a.num * b.den + b.num * a.den) (a.den * b.den)

/-- Exact rational subtraction via `Rat.divInt` (kernel-evaluable form of `-`). -/
def qSub (a b : Rat) : Rat := Rat.divInt (a.num * b.den - b.num * a.den) (a.den * b.den)

/-- Exact rational multiplication via `Rat.divInt` (kernel-evaluable form of `*`). -/
def qMul (a b : Rat) : Rat := Rat.divInt (a.num * b.num) (a.den * b.den)

/-- Exact rational division via `Rat.divInt` (kernel-evaluable form of `/`;
like Python's operators lifted to exact rationals, with `x / 0 = 0`
matching `Rat` convention — the embedded code never divides by zero). -/
def qDiv (a b : Rat) : Rat := Rat.divInt (a.num * b.den) (a.den * b.num)

theorem qAdd_eq (a b : Rat) : qAdd a b = a + b := by
  have had : ((a.den : Rat)) ≠ 0 := by exact_mod_cast a.den_nz
  have hbd : ((b.den : Rat)) ≠ 0 := by exact_mod_cast b.den_nz
  have hA : (a.num : Rat) = a * (a.den : Rat) := (div_eq_iff had).mp (Rat.num_div_den a)
  have hB : (b.num : Rat) = b * (b.den : Rat) := (div_eq_iff hbd).mp (Rat.num_div_den b)
  rw [qAdd, Rat.divInt_eq_div]
  push_cast
  field_simp
  rw [hA, hB]
  ring

theorem qSub_eq (a b : Rat) : qSub a b = a - b := by
  have had : ((a.den : Rat)) ≠ 0 := by exact_mod_cast a.den_nz
  have hbd : ((b.den : Rat)) ≠ 0 := by exact_mod_cast b.den_nz
  have hA : (a.num : Rat) = a * (a.den : Rat) := (div_eq_iff had).mp (Rat.num_div_den a)
  have hB : (b.num : Rat) = b * (b.den : Rat) := (div_eq_iff hbd).mp (Rat.num_div_den b)
  rw [qSub, Rat.divInt_eq_div]
  push_cast
  field_simp
  rw [hA, hB]
  ring

theorem qMul_eq (a b : Rat) : qMul a b = a * b := by
  have had : ((a.den : Rat)) ≠ 0 := by exact_mod_cast a.den_nz
  have hbd : ((b.den : Rat)) ≠ 0 := by exact_mod_cast b.den_nz
  have hA : (a.num : Rat) = a * (a.den : Rat) := (div_eq_iff had).mp (Rat.num_div_den a)
  have hB : (b.num : Rat) = b * (b.den : Rat) := (div_eq_iff hbd).mp (Rat.num_div_den b)
  rw [qMul, Rat.divInt_eq_div]
  push_cast
  field_simp
  rw [hA, hB]
  ring

theorem qDiv_eq (a b : Rat) : qDiv a b = a / b := by
  by_cases hb : b = 0
  · subst hb
    show Rat.divInt (a.num * (0 : Rat).den) (a.den * (0 : Rat).num) = a / 0
    simp
  · have had : ((a.den : Rat)) ≠ 0 := by exact_mod_cast a.den_nz
    have hbd : ((b.den : Rat)) ≠ 0 := by exact_mod_cast b.den_nz
    have hbn : ((b.num : Rat)) ≠ 0 := by exact_mod_cast Rat.num_ne_zero.mpr hb
    have hA : (a.num : Rat) = a * (a.den : Rat) := (div_eq_iff had).mp (Rat.num_div_den a)
    have hB : (b.num : Rat) = b * (b.den : Rat) := (div_eq_iff hbd).mp (Rat.num_div_den b)
    rw [qDiv, Rat.divInt_eq_div]
    push_cast
    rw [div_eq_div_iff (mul_ne_zero had hbn) hb, hA, hB]
    ring

theorem rat_floor_le (q : Rat) : (q.floor : Rat) ≤ q := Rat.le_floor.mp (le_refl q.floor)

theorem rat_lt_floor_add_one (q : Rat) : q < (q.floor : Rat) + 1 := by
  by_contra hc
  push_neg at hc
  have h2 : ((q.floor + 1 : Int) : Rat) ≤ q := by push_cast; linarith
  have h3 := Rat.le_floor.mpr h2
  omega

/-- Python's banker's rounding of `y` to the nearest integer
(`round(y)`: half-way cases go to the even neighbour). -/
def pyRoundInt (y : Rat) : Int :=
  if qSub y (mkRat y.floor 1) < mkRat 1 2 then y.floor
  else if mkRat 1 2 < qSub y (mkRat y.floor 1) then y.floor + 1
  else if y.floor % 2 = 0 then y.floor else y.floor + 1

/-- Python's `round(x, 2)`: round to two decimal places, half to even. -/
def pyRound2 (x : Rat) : Rat := mkRat (pyRoundInt (qMul x 100)) 100

theorem pyRoundInt_cases (y : Rat) :
    pyRoundInt y = y.floor ∨
      (pyRoundInt y = y.floor + 1 ∧ mkRat 1 2 ≤ qSub y (mkRat y.floor 1)) := by
  unfold pyRoundInt
  split
  · exact Or.inl rfl
  · rename_i h1
    split
    · rename_i h2
      exact Or.inr ⟨rfl, le_of_lt h2⟩
    · split
      · exact Or.inl rfl
      · exact Or.inr ⟨rfl, not_lt.mp h1⟩

theorem mkRat_int_cast (n : Int) : mkRat n 1 = (n : Rat) := by
  rw [Rat.mkRat_eq_div]
  norm_num

theorem pyRound2_nonneg {x : Rat} (hx : 0 ≤ x) : 0 ≤ pyRound2 x := by
  have hy : (0 : Rat) ≤ qMul x 100 := by
    rw [qMul_eq]
    positivity
  have hf : (0 : Int) ≤ (qMul x 100).floor := Rat.le_floor.mpr (by exact_mod_cast hy)
  have hn : (0 : Int) ≤ pyRoundInt (qMul x 100) := by
    rcases pyRoundInt_cases (qMul x 100) with h | h
    · omega
    · omega
  rw [pyRound2, Rat.mkRat_eq_div]
  apply div_nonneg _ (by norm_num)
  exact_mod_cast hn

theorem pyRound2_le_100 {x : Rat} (hx : x ≤ 100) : pyRound2 x ≤ 100 := by
  have hy : qMul x 100 ≤ 10000 := by
    rw [qMul_eq]
    linarith
  have hn : pyRoundInt (qMul x 100) ≤ 10000 := by
    rcases pyRoundInt_cases (qMul x 100) with h | ⟨h, hhalf⟩
    · have h1 : ((qMul x 100).floor : Rat) ≤ 10000 := le_trans (rat_floor_le _) hy
      rw [h]
      exact_mod_cast h1
    · rw [qSub_eq, mkRat_int_cast] at hhalf
      have hhalf2 : (1 : Rat) / 2 ≤ qMul x 100 - ((qMul x 100).floor : Rat) := by
        have : (mkRat 1 2 : Rat) = 1 / 2 := by rw [Rat.mkRat_eq_div]; norm_num
        linarith [this ▸ hhalf]
      have h1 : (((qMul x 100).floor + 1 : Int) : Rat) ≤ 10000 + 1 / 2 := by
        push_cast
        linarith
      have h2 : (((qMul x 100).floor + 1 : Int) : Rat) < 10001 := by linarith
      have h3 : (qMul x 100).floor + 1 < 10001 := by exact_mod_cast h2
      omega
  rw [pyRound2, Rat.mkRat_eq_div]
  rw [div_le_iff₀ (by norm_num : (0 : Rat) < (100 : Nat))]
  have : ((pyRoundInt (qMul x 100) : Int) : Rat) ≤ 10000 := by exact_mod_cast hn
  norm_num at this ⊢
  linarith

/-! ## Python string primitives (character-wise, ASCII) -/

/-- Python `str.strip()` restricted to the ASCII whitespace the scraper can
meet (`' '`, tab, CR, LF). -/
def pyStrip (l : List Char) : List Char :=
  ((l.dropWhile Char.isWhitespace).reverse.dropWhile Char.isWhitespace).reverse

/-- Python `str.upper()` (ASCII case map; all constants in the program are ASCII). -/
def pyUpper (l : List Char) : List Char := l.map Char.toUpper

/-- Python `str.lower()` (ASCII case map). -/
def pyLower (l : List Char) : List Char := l.map Char.toLower

/-- First token of Python `str.split()` (split on whitespace runs), or `[]`
when the string has no token. -/
def firstWord (l : List Char) : List Char :=
  (l.dropWhile Char.isWhitespace).takeWhile (fun c => !c.isWhitespace)

/-- Numeric value of a digit string (used to model `float` parsing). -/
def digitsToNat (cs : List Char) : Nat :=
  cs.foldl (fun n c => n * 10 + (c.toNat - 48)) 0

/-- Python `float(s)` on the strings `clean_price` can produce (digits and
dots only, commas already removed): at most one dot and at least one digit,
otherwise a `ValueError` (`none`).  The value is the exact decimal. -/
def parseFloat (cs : List Char) : Option Rat :=
  match cs.splitOn '.' with
  | [a] =>
    if a ≠ [] ∧ a.all Char.isDigit then some (mkRat (digitsToNat a) 1) else none
  | [a, b] =>
    if (a ≠ [] ∨ b ≠ []) ∧ a.all Char.isDigit ∧ b.all Char.isDigit then
      some (mkRat (digitsToNat a * 10 ^ b.length + digitsToNat b) (10 ^ b.length))
    else none
  | _ => none

/-- Python `s.replace(w, "")` (drop every occurrence of `w`, scanning left to
right, continuing after each removal), with explicit fuel for structural
recursion; `removeOcc` supplies enough fuel for the scan to finish. -/
def removeOccF (w : List Char) : Nat → List Char → List Char
  | _, [] => []
  | 0, l => l
  | fuel + 1, c :: rest =>
    if 0 < w.length ∧ w.isPrefixOf (c :: rest) then
      removeOccF w fuel ((c :: rest).drop w.length)
    else c :: removeOccF w fuel rest

/-- Python `s.replace(w, "")`: remove every occurrence of `w` from `l`. -/
def removeOcc (w : List Char) (l : List Char) : List Char :=
  removeOccF w l.length l

/-- Remove every substring that case-insensitively matches `w` (the reading
of the specification's "every case-variant occurrence"); same scan order as
`removeOcc`, with explicit fuel. -/
def stripCIF (w : List Char) : Nat → List Char → List Char
  | _, [] => []
  | 0, l => l
  | fuel + 1, c :: rest =>
    if 0 < w.length ∧ w.length ≤ (c :: rest).length ∧
        ((c :: rest).take w.length).map Char.toLower = w.map Char.toLower then
      stripCIF w fuel ((c :: rest).drop w.length)
    else c :: stripCIF w fuel rest

/-- Remove every case-variant occurrence of `w` from `l`. -/
def stripCI (w : List Char) (l : List Char) : List Char :=
  stripCIF w l.length l

/-- Python f-string `f"{n:04d}"`: decimal digits of `n`, left-padded with
zeros to at least four characters. -/
def pad4 (n : Nat) : String :=
  let s := Nat.repr n
  String.mk (List.replicate (4 - s.length) '0') ++ s

/-- Python `w in l` on strings: `w` occurs as a contiguous substring of `l`
(prefix of some suffix). -/
def isSubstring (w : List Char) : List Char → Bool
  | [] => w.isPrefixOf []
  | c :: rest => w.isPrefixOf (c :: rest) || isSubstring w rest

/-! ## Text Normalizer (`EnhancedJumiaScraper.clean_price`, lines 267-279) -/

/-- `clean_price(price_text)` step 1-2: keep only digits, commas and dots
(`re.sub` on the stripped text), then drop commas. -/
def cleaned_price_text (price_text : String) : List Char :=
  ((pyStrip price_text.data).filter (fun c => c.isDigit || c == ',' || c == '.')).filter
    (fun c => c != ',')

/-- `clean_price(price_text)`: `0.0` for falsy input, else clean the text
and parse it as a float, with `0.0` for empty or unparseable remainders;
never raises. -/
def clean_price (price_text : String) : Rat :=
  if price_text.data = [] then 0
  else if cleaned_price_text price_text = [] then 0
  else match parseFloat (cleaned_price_text price_text) with
    | some v => v
    | none => 0

theorem parseFloat_nonneg (cs : List Char) (q : Rat) (h : parseFloat cs = some q) : 0 ≤ q := by
  unfold parseFloat at h
  split at h
  · split at h
    · have hq : q = mkRat (digitsToNat _) 1 := (Option.some.inj h).symm
      rw [hq, Rat.mkRat_eq_div]
      positivity
    · exact absurd h (by simp)
  · split at h
    · rename_i a b heq hcond
      have hq : q = mkRat (digitsToNat a * 10 ^ b.length + digitsToNat b) (10 ^ b.length) :=
        (Option.some.inj h).symm
      rw [hq, Rat.mkRat_eq_div]
      positivity
    · exact absurd h (by simp)
  · exact absurd h (by simp)

theorem clean_price_nonneg (s : String) : 0 ≤ clean_price s := by
  unfold clean_price
  split
  · norm_num
  · split
    · norm_num
    · split
      · rename_i v hv
        exact parseFloat_nonneg _ v hv
      · norm_num

/-! ## Attribute Inferencer (`extract_brand` lines 281-307, `extract_model` lines 309-321) -/

def brands_tech : List String := ["HP", "Dell", "Lenovo", "Asus", "Acer", "Apple", "Microsoft", "MSI"]

def brands_phones : List String := ["Samsung", "iPhone", "Huawei", "Xiaomi", "OnePlus", "Nokia", "Oppo", "Vivo"]

def brands_tv : List String := ["Samsung", "LG", "Sony", "TCL", "Hisense", "Toshiba"]

def brands_appliances : List String := ["Samsung", "LG", "Whirlpool", "Bosch", "Electrolux"]

def brands_gaming : List String := ["PlayStation", "Xbox", "Nintendo", "Razer", "Logitech"]

/-- `extract_brand(product_name, category_key)`: first brand of the
category's candidate list whose uppercase form occurs in the uppercased
name; otherwise the first whitespace token of the name (or `"Unknown"` for
an empty name), truncated to 20 characters. -/
def extract_brand (product_name : String) (category_key : String) : String :=
  let product_upper := pyUpper product_name.data
  let brands_to_check :=
    if category_key = "ordinateurs-pc" ∨ category_key = "jeux-videos-consoles" then
      brands_tech ++ brands_gaming
    else if category_key = "telephones-smartphones" then brands_phones
    else if category_key = "tv-home-cinema-lecteurs" then brands_tv
    else if category_key = "mlp-electromenager" then brands_appliances
    else brands_tech ++ brands_phones ++ brands_tv ++ brands_appliances ++ brands_gaming
  match brands_to_check.find? (fun b => isSubstring (pyUpper b.data) product_upper) with
  | some b => b
  | none =>
    let fw := firstWord product_name.data
    String.mk ((if fw = [] then ("Unknown").data else fw).take 20)

def common_words : List String := ["Laptop", "Smartphone", "TV", "Inch", "GB", "TB", "RAM", "SSD", "HDD"]

/-- `extract_model(product_name, brand)`: the name truncated to 100
characters when the brand is `"Unknown"` or not a substring; otherwise the
name with the brand removed, each stop word removed in its listed, upper
and lower spellings (in that order), trimmed and truncated to 100. -/
def extract_model (product_name : String) (brand : String) : String :=
  if brand = "Unknown" ∨ ¬ isSubstring brand.data product_name.data then
    String.mk (product_name.data.take 100)
  else
    let model := pyStrip (removeOcc brand.data product_name.data)
    let model := common_words.foldl
      (fun m w => removeOcc (pyLower w.data) (removeOcc (pyUpper w.data) (removeOcc w.data m))) model
    String.mk ((pyStrip model).take 100)

/-! ## Metric Calculator (`calculate_discount` 323-327, `classify_price_tier` 329-347, `calculate_value_score` 349-367) -/

/-- `calculate_discount(current_price, original_price)`: zero when the
original price is falsy or not above the current price, else the rounded
percentage saved. -/
def calculate_discount (current_price original_price : Rat) : Rat :=
  if original_price = 0 ∨ original_price ≤ current_price then 0
  else pyRound2 (qMul (qDiv (qSub original_price current_price) original_price) 100)

/-- Per-category `(budget, premium)` thresholds of `classify_price_tier`,
with the general fallback `(1000, 5000)` of `price_ranges.get`. -/
def price_ranges (category_key : String) : Rat × Rat :=
  if category_key = "ordinateurs-pc" then (3000, 10000)
  else if category_key = "telephones-smartphones" then (2000, 6000)
  else if category_key = "tv-home-cinema-lecteurs" then (2500, 8000)
  else if category_key = "mlp-electromenager" then (1500, 5000)
  else if category_key = "jeux-videos-consoles" then (1000, 4000)
  else (1000, 5000)

/-- `classify_price_tier(price, category_key)`. -/
def classify_price_tier (price : Rat) (category_key : String) : String :=
  let ranges := price_ranges category_key
  if price ≤ ranges.1 then "Budget"
  else if price ≤ ranges.2 then "Mid-range"
  else "Premium"

/-- `calculate_value_score(current_price, original_price, discount_percent)`:
base 50, plus `min(discount * 0.6, 30)`, plus a price-step bonus, clamped to
`[0, 100]` and rounded to two decimals.  The `original_price` parameter is
accepted and ignored, exactly as in the source. -/
def calculate_value_score (current_price original_price discount_percent : Rat) : Rat :=
  let base_score : Rat := 50
  let discount_bonus := min (qMul discount_percent (mkRat 6 10)) 30
  let price_bonus : Rat :=
    if current_price < 1000 then 20
    else if current_price < 3000 then 10
    else if current_price < 5000 then 0
    else mkRat (-10) 1
  let total_score := qAdd (qAdd base_score discount_bonus) price_bonus
  pyRound2 (max 0 (min 100 total_score))

/-! ## Data model -/

/-- One raw product listing handed over by the DOM layer: the optional
`inner_text` of `h3.name`, `div.prc` and `div.old`, and — when `a.core`
exists — the optional `href` attribute. -/
structure Fragment where
  name_elem : Option String
  price_elem : Option String
  old_price_elem : Option String
  link_elem : Option (Option String)
deriving DecidableEq

/-- The dictionary built by `extract_product_data` (timestamp fields
omitted; see the module comment). -/
structure Product where
  product_id : String
  product_name : String
  brand : String
  model : String
  category : String
  category_key : String
  current_price : Rat
  original_price : Option Rat
  discount_percent : Rat
  price_tier : String
  value_score : Rat
  is_on_sale : Bool
  url : String
deriving DecidableEq

/-- `scraping_stats` counters. -/
structure Stats where
  total_products : Nat
  categories_processed : Nat
  pages_scraped : Nat
  errors : Nat
deriving DecidableEq

/-- One entry of `categories_scraped`. -/
structure CategoryResult where
  name : String
  products_found : Nat
  pages_scraped : Nat
deriving DecidableEq

/-- The mutable state of an `EnhancedJumiaScraper` instance. -/
structure ScraperState where
  products : List Product
  categories_scraped : List (String × CategoryResult)
  stats : Stats
deriving DecidableEq

/-- State right after `__init__`. -/
def initialState : ScraperState := ⟨[], [], ⟨0, 0, 0, 0⟩⟩

/-- Result of one page fetch (`page.goto` + `query_selector_all`): either a
transport/timeout failure or a list of fragments. -/
inductive FetchResult where
  | fail : FetchResult
  | ok : List Fragment → FetchResult

/-! ## Product Builder (`extract_product_data`, lines 206-265) -/

/-- `extract_product_data(container, category_key, category_name,
product_index)`: `none` when the cleaned current price is zero, else the
assembled record. -/
def extract_product_data (container : Fragment) (category_key category_name : String)
    (product_index : Nat) : Option Product :=
  let product_name := match container.name_elem with
    | some t => String.mk (pyStrip t.data)
    | none => "N/A"
  let current_price := clean_price (container.price_elem.getD ("0"))
  let original_price := clean_price (container.old_price_elem.getD ("0"))
  if current_price = 0 then none
  else
    let brand := extract_brand product_name category_key
    let model := extract_model product_name brand
    let discount_percent := calculate_discount current_price original_price
    let product_url := match container.link_elem with
      | none => ""
      | some href => match href with
        | some h => if h = "" then "" else "https://www.jumia.ma" ++ h
        | none => ""
    some {
      product_id := "JUM_" ++ pad4 product_index
      product_name := product_name
      brand := brand
      model := model
      category := category_name
      category_key := category_key
      current_price := current_price
      original_price := if 0 < original_price then some original_price else none
      discount_percent := discount_percent
      price_tier := classify_price_tier current_price category_key
      value_score := calculate_value_score current_price original_price discount_percent
      is_on_sale := 0 < discount_percent
      url := product_url }

/-! ## Page Processor (`process_products`, lines 185-204) -/

/-- Loop body of `process_products`: `productsLen` is `len(self.products)`
at call time (fixed for the whole page), `acc` is `page_products`.  The
index handed to the builder is
`len(self.products) + len(page_products) + 1`.  `extract_product_data`
catches its own exceptions, so the `except` branch of this loop is not
reachable and no error counter is threaded through. -/
def process_products_go (category_key category_name : String) (productsLen : Nat) :
    List Fragment → List Product → List Product
  | [], acc => acc
  | c :: rest, acc =>
    match extract_product_data c category_key category_name (productsLen + acc.length + 1) with
    | some p => process_products_go category_key category_name productsLen rest (acc ++ [p])
    | none => process_products_go category_key category_name productsLen rest acc

/-- `process_products(product_containers, category_key, category_name)`
evaluated when `len(self.products) = productsLen`. -/
def process_products (product_containers : List Fragment) (category_key category_name : String)
    (productsLen : Nat) : List Product :=
  process_products_go category_key category_name productsLen product_containers []

/-! ## Category Runner (`scrape_category`, lines 137-183) -/

/-- Active configuration of one category (entry of `self.categories`). -/
structure CatInfo where
  name : String
  pages : Nat
  expected_products : Rat
deriving DecidableEq

/-- The page loop `for page_num in range(1, pages_to_scrape + 1)` of
`scrape_category`, recursing over the list of remaining page numbers.
`lastPage` carries the current value of the Python loop variable
`page_num`; a `fail` fetch models any exception inside the per-page `try`
(error counter incremented, loop continues), an empty fetch hits the
`break`, and a non-empty fetch is processed and counted.  Returns the
state, the accumulated `category_products`, and the final `page_num`. -/
def catLoopPages (fetch : String → Nat → FetchResult) (category_key category_name : String) :
    List Nat → ScraperState → List Product → Nat → ScraperState × List Product × Nat
  | [], st, catProds, lastPage => (st, catProds, lastPage)
  | p :: rest, st, catProds, _ =>
    match fetch category_key p with
    | FetchResult.fail =>
      catLoopPages fetch category_key category_name rest
        { st with stats := { st.stats with errors := st.stats.errors + 1 } } catProds p
    | FetchResult.ok [] => (st, catProds, p)
    | FetchResult.ok frags =>
      catLoopPages fetch category_key category_name rest
        { st with stats := { st.stats with pages_scraped := st.stats.pages_scraped + 1 } }
        (catProds ++ process_products frags category_key category_name st.products.length) p

/-- `scrape_category(page, category_key, category_info)`: run the page
loop, then record the `categories_scraped` entry (with `page_num` as its
`pages_scraped` field, per line 179), extend `self.products` and refresh
`total_products`.  Only meaningful for `pages ≥ 1` (with zero configured
pages the Python code would hit an unbound `page_num`; every configured
count in the program is at least 1). -/
def scrape_category (fetch : String → Nat → FetchResult) (category_key : String)
    (category_info : CatInfo) (st : ScraperState) : ScraperState :=
  let r := catLoopPages fetch category_key category_info.name
    (List.range' 1 category_info.pages) st [] 0
  let newProducts := r.1.products ++ r.2.1
  { r.1 with
    categories_scraped :=
      r.1.categories_scraped ++ [(category_key, ⟨category_info.name, r.2.1.length, r.2.2⟩)]
    products := newProducts
    stats := { r.1.stats with total_products := newProducts.length } }

/-! ## Run Orchestrator (`scrape_all_categories`, lines 74-135) -/

/-- Static entry of `self.base_categories`. -/
structure BaseCat where
  name : String
  default_pages : Nat
  expected_products : Nat
deriving DecidableEq

/-- `self.base_categories` in insertion order. -/
def base_categories : List (String × BaseCat) := [
  ("ordinateurs-pc", ⟨"Laptops & Computers", 4, 80⟩),
  ("telephones-smartphones", ⟨"Smartphones", 4, 80⟩),
  ("tv-home-cinema-lecteurs", ⟨"Televisions", 3, 60⟩),
  ("mlp-electromenager", ⟨"Home Appliances", 3, 60⟩),
  ("jeux-videos-consoles", ⟨"Gaming", 2, 40⟩)]

/-- The Python value passed as `max_pages_per_category`: `None`, an `int`
(which includes `bool` in Python), or a value of any other type. -/
inductive PyOverride where
  | noneV : PyOverride
  | intV : Int → PyOverride
  | otherV : PyOverride

/-- Lines 84-94: build `categories_to_scrape`, overriding each default page
count when `isinstance(max_pages_per_category, int) and
max_pages_per_category >= 1`. -/
def categoriesToScrape (maxPages : PyOverride) : List (String × CatInfo) :=
  base_categories.map (fun e =>
    let pages := match maxPages with
      | PyOverride.intV n => if 1 ≤ n then n.toNat else e.2.default_pages
      | _ => e.2.default_pages
    (e.1, { name := e.2.name
            pages := pages
            expected_products :=
              qMul (mkRat e.2.expected_products 1) (qDiv (mkRat pages 1) (mkRat e.2.default_pages 1)) }))

/-- How one category's execution ends: `normal` (no uncaught exception) or
`abort k` — an uncaught exception escapes `scrape_category` after `k`
iterations of its page loop.  In the source, mutations already performed on
`self` (error and page counters) survive such an exception, while the local
`category_products` and the end-of-category bookkeeping of lines 176-183
never happen. -/
inductive CatOutcome where
  | normal : CatOutcome
  | abort : Nat → CatOutcome

/-- State visible after an uncaught exception escapes `scrape_category` for
`category_key` after `k` pages, plus the orchestrator's `except` branch
(line 129): error counter incremented; the category's local products are
lost with the local variable. -/
def afterAbort (fetch : String → Nat → FetchResult) (category_key : String) (info : CatInfo)
    (st : ScraperState) (k : Nat) : ScraperState :=
  let st1 := (catLoopPages fetch category_key info.name
    (List.range' 1 (min k info.pages)) st [] 0).1
  { st1 with stats := { st1.stats with errors := st1.stats.errors + 1 } }

/-- The `for category_key, category_info in self.categories.items()` loop of
`scrape_all_categories` (lines 116-129), with per-category outcomes supplied
by `failure`: a `normal` category runs `scrape_category` and then increments
`categories_processed`; an aborted one leaves `afterAbort` state and the
loop proceeds to the next category. -/
def runCategories (fetch : String → Nat → FetchResult) (failure : String → CatOutcome) :
    List (String × CatInfo) → ScraperState → ScraperState
  | [], st => st
  | (category_key, info) :: rest, st =>
    match failure category_key with
    | CatOutcome.normal =>
      let st1 := scrape_category fetch category_key info st
      runCategories fetch failure rest
        { st1 with stats :=
          { st1.stats with categories_processed := st1.stats.categories_processed + 1 } }
    | CatOutcome.abort k =>
      runCategories fetch failure rest (afterAbort fetch category_key info st k)

/-- `scrape_all_categories(max_pages_per_category)` from a fresh scraper,
over the fetch collaborator `fetch` and exception behaviour `failure`. -/
def scrape_all_categories (maxPages : PyOverride) (fetch : String → Nat → FetchResult)
    (failure : String → CatOutcome) : ScraperState :=
  runCategories fetch failure (categoriesToScrape maxPages) initialState

/-! ## Claims about the leaf functions -/

/-- Claim C5: `clean_price` is total on strings, returns a non-negative
value and never raises; it keeps only digits, commas and periods, drops
commas, and parses the remainder, with `0.0` for empty, all-non-numeric, or
parse-failing input; `clean_price("1,234.56 MAD") = 1234.56`
(= `mkRat 123456 100`), `clean_price("") = 0.0`, `clean_price("N/A") = 0.0`. -/
theorem c5_clean_price :
    (∀ s : String, 0 ≤ clean_price s) ∧
    clean_price ("1,234.56 MAD") = mkRat 123456 100 ∧
    clean_price ("") = 0 ∧
    clean_price ("N/A") = 0 :=
  ⟨clean_price_nonneg, by decide, by decide, by decide⟩

theorem price_ranges_le (category_key : String) :
    (price_ranges category_key).1 ≤ (price_ranges category_key).2 := by
  unfold price_ranges
  repeat' split
  all_goals decide

/-- Claim C7: `classify_price_tier` returns `Budget` for
`price ≤ budget`, `Mid-range` for `budget < price ≤ premium`, `Premium`
above; unknown category keys fall back to `(budget, premium) = (1000, 5000)`,
so `1000 → Budget`, `1000.01 → Mid-range`, `5000 → Mid-range`,
`5000.01 → Premium` (decimals written as `mkRat`). -/
theorem c7_price_tier :
    (∀ (price : Rat) (category_key : String),
      (price ≤ (price_ranges category_key).1 →
        classify_price_tier price category_key = "Budget") ∧
      ((price_ranges category_key).1 < price → price ≤ (price_ranges category_key).2 →
        classify_price_tier price category_key = "Mid-range") ∧
      ((price_ranges category_key).2 < price →
        classify_price_tier price category_key = "Premium")) ∧
    (∀ category_key : String,
      category_key ∉ ["ordinateurs-pc", "telephones-smartphones", "tv-home-cinema-lecteurs",
        "mlp-electromenager", "jeux-videos-consoles"] →
      price_ranges category_key = (1000, 5000)) ∧
    classify_price_tier 1000 ("electronics") = "Budget" ∧
    classify_price_tier (mkRat 100001 100) ("electronics") = "Mid-range" ∧
    classify_price_tier 5000 ("electronics") = "Mid-range" ∧
    classify_price_tier (mkRat 500001 100) ("electronics") = "Premium" := by
  refine ⟨?_, ?_, by decide, by decide, by decide, by decide⟩
  · intro price category_key
    refine ⟨?_, ?_, ?_⟩
    · intro h
      simp [classify_price_tier, h]
    · intro h1 h2
      simp [classify_price_tier, not_le.mpr h1, h2]
    · intro h
      have h1 : ¬ price ≤ (price_ranges category_key).1 :=
        not_le.mpr (lt_of_le_of_lt (price_ranges_le category_key) h)
      simp [classify_price_tier, h1, not_le.mpr h]
  · intro category_key hk
    simp only [List.mem_cons, List.mem_singleton, not_or] at hk
    simp [price_ranges, hk.1, hk.2.1, hk.2.2.1, hk.2.2.2.1, hk.2.2.2.2]

/-- Witness for C7 at a concrete input: an unknown category key and price
500 land in `Budget`. -/
theorem c7_price_tier_witness : classify_price_tier 500 ("gadgets") = "Budget" :=
  (c7_price_tier.1 500 ("gadgets")).1 (by decide)

/-- Claim C8: `calculate_value_score` always lands in `[0, 100]` (proved
for all rational inputs, hence in particular for the claim's range), and on
the claim's sample `value_score(500, 1000, 50) = 100.0`; the remaining
conjuncts pin the price-step bonus (`<1000 → +20`, `<3000 → +10`,
`<5000 → +0`, else `-10`) and the 30-point discount-bonus cap. -/
theorem c8_value_score :
    (∀ current_price original_price discount_percent : Rat,
      0 ≤ calculate_value_score current_price original_price discount_percent ∧
      calculate_value_score current_price original_price discount_percent ≤ 100) ∧
    calculate_value_score 500 1000 50 = 100 ∧
    calculate_value_score 500 0 0 = 70 ∧
    calculate_value_score 2000 0 0 = 60 ∧
    calculate_value_score 4000 0 0 = 50 ∧
    calculate_value_score 6000 0 0 = 40 ∧
    calculate_value_score 500 0 100 = 100 := by
  refine ⟨?_, by decide, by decide, by decide, by decide, by decide, by decide⟩
  intro c o d
  have hrfl : calculate_value_score c o d =
      pyRound2 (max 0 (min 100 (qAdd (qAdd 50 (min (qMul d (mkRat 6 10)) 30))
        (if c < 1000 then 20 else if c < 3000 then 10 else if c < 5000 then 0
          else mkRat (-10) 1)))) := rfl
  rw [hrfl]
  constructor
  · exact pyRound2_nonneg (le_max_left _ _)
  · exact pyRound2_le_100 (max_le (by norm_num) (min_le_left _ _))

/-! ## Claims about the Product Builder -/

/-- Placeholder record used only to name the computed records below. -/
def dummyProduct : Product := ⟨"", "", "", "", "", "", 0, none, 0, "", 0, false, ""⟩

/-- Fragment whose original-price text parses to 50 while the current price
is 100: the original price is NOT above the current price. -/
def fragC3 : Fragment := ⟨some ("X"), some ("100"), some ("50"), none⟩

/-- Counterexample to claim C3 as stated: for `fragC3` the parsed original
price 50 is not greater than the current price 100, yet the built record
carries `original_price = 50` instead of the `None` the claim requires (the
code's test on line 250 is `original_price > 0`, not
`original_price > current_price`). -/
theorem c3_counterexample :
    (extract_product_data fragC3 ("k") ("K") 1).map Product.original_price =
      some (some 50) ∧
    ((50 : Rat) ≤ 100) :=
  ⟨by decide, by decide⟩

/-- Claim C3 as amended: in every accepted record, `original_price` is
`None` exactly when the cleaned original-price text is `0.0` (absent or
unparseable), and carries the cleaned value whenever it is positive —
regardless of how it compares with the current price. -/
theorem c3_original_price (frag : Fragment) (category_key category_name : String)
    (idx : Nat) (rec : Product)
    (h : extract_product_data frag category_key category_name idx = some rec) :
    rec.original_price =
      (if 0 < clean_price (frag.old_price_elem.getD ("0"))
       then some (clean_price (frag.old_price_elem.getD ("0"))) else none) := by
  simp only [extract_product_data] at h
  split at h
  · exact absurd h (by simp)
  · obtain rfl := (Option.some.inj h).symm
    rfl

/-- Fragment with a positive original price (300 > 100). -/
def fragC3w : Fragment := ⟨some ("X"), some ("100"), some ("300"), none⟩

/-- The record built from `fragC3w`. -/
def recC3w : Product := (extract_product_data fragC3w ("k") ("K") 1).getD dummyProduct

/-- Witness for the amended C3 at a concrete input. -/
theorem c3_original_price_witness : recC3w.original_price = some 300 := by
  have h := c3_original_price fragC3w ("k") ("K") 1 recC3w (by decide)
  rw [h]
  decide

/-- Fragment whose link is present but does not start with a slash. -/
def fragC4 : Fragment := ⟨some ("X"), some ("100"), none, some (some ("abc"))⟩

/-- Counterexample to claim C4 as stated: the link `"abc"` does not start
with `'/'`, so the claim requires `url = "abc"` (pass through unchanged);
the code prefixes the site root onto every truthy link (line 235),
producing `"https://www.jumia.maabc"`. -/
theorem c4_counterexample :
    (extract_product_data fragC4 ("k") ("K") 1).map Product.url =
      some ("https://www.jumia.maabc") ∧
    ("https://www.jumia.maabc" : String) ≠ "abc" :=
  ⟨by decide, by decide⟩

/-- Claim C4 as amended: in every accepted record the url is the site root
prefixed onto the link whenever a non-empty link is present (whether or not
it starts with `'/'`), and the empty string when the link element or its
`href` is absent or empty. -/
theorem c4_url (frag : Fragment) (category_key category_name : String)
    (idx : Nat) (rec : Product)
    (h : extract_product_data frag category_key category_name idx = some rec) :
    rec.url = (match frag.link_elem with
      | none => ""
      | some href => match href with
        | some h2 => if h2 = "" then "" else "https://www.jumia.ma" ++ h2
        | none => "") := by
  simp only [extract_product_data] at h
  split at h
  · exact absurd h (by simp)
  · obtain rfl := (Option.some.inj h).symm
    rfl

/-- Fragment with a root-relative link. -/
def fragC4w : Fragment := ⟨some ("X"), some ("100"), none, some (some ("/p1.html"))⟩

/-- The record built from `fragC4w`. -/
def recC4w : Product := (extract_product_data fragC4w ("k") ("K") 1).getD dummyProduct

/-- Witness for the amended C4 at a concrete input. -/
theorem c4_url_witness : recC4w.url = "https://www.jumia.ma/p1.html" := by
  have h := c4_url fragC4w ("k") ("K") 1 recC4w (by decide)
  rw [h]
  decide

/-! ## Claims about model inference -/

/-- The model-extraction function exactly as claim C6 words it: brand
removed case-sensitively, then EVERY case-variant occurrence of each stop
word removed, trimmed, truncated to 100 characters. -/
def extract_model_claim (product_name : String) (brand : String) : String :=
  if brand = "Unknown" ∨ ¬ isSubstring brand.data product_name.data then
    String.mk (product_name.data.take 100)
  else
    String.mk ((pyStrip (common_words.foldl (fun m w => stripCI w.data m)
      (removeOcc brand.data product_name.data))).take 100)

/-- Counterexample to claim C6 as stated: on name `"HP LapTop"` with brand
`"HP"`, removing every case-variant occurrence of `"Laptop"` would leave
the empty string, but the code only removes the listed, all-uppercase and
all-lowercase spellings, leaving `"LapTop"`. -/
theorem c6_counterexample :
    extract_model ("HP LapTop") ("HP") = "LapTop" ∧
    extract_model_claim ("HP LapTop") ("HP") = "" ∧
    extract_model ("HP LapTop") ("HP") ≠ extract_model_claim ("HP LapTop") ("HP") :=
  ⟨by decide, by decide, by decide⟩

/-- Claim C6 as amended: when brand is `"Unknown"` or not a substring of
the name, `extract_model` returns the name truncated to 100 characters; in
the other branch it removes, per stop word, only the word's listed,
all-uppercase and all-lowercase spellings (in that order) — shown on the
three spellings of `"Laptop"` — and leaves other case variants such as
`"LapTop"` in place. -/
theorem c6_extract_model :
    (∀ product_name brand : String,
      brand = "Unknown" ∨ isSubstring brand.data product_name.data = false →
      extract_model product_name brand = String.mk (product_name.data.take 100)) ∧
    extract_model ("HP Laptop X1") ("HP") = "X1" ∧
    extract_model ("HP LAPTOP X1") ("HP") = "X1" ∧
    extract_model ("HP laptop X1") ("HP") = "X1" ∧
    extract_model ("HP LapTop X1") ("HP") = "LapTop X1" := by
  refine ⟨?_, by decide, by decide, by decide, by decide⟩
  intro product_name brand h
  have hcond : brand = "Unknown" ∨ ¬ isSubstring brand.data product_name.data := by
    rcases h with h | h
    · exact Or.inl h
    · exact Or.inr (by simp [h])
  unfold extract_model
  rw [if_pos hcond]

/-- Witness for the amended C6 at a concrete input (brand `"Unknown"`). -/
theorem c6_extract_model_witness : extract_model ("Galaxy A14") ("Unknown") = "Galaxy A14" := by
  have h := c6_extract_model.1 ("Galaxy A14") ("Unknown") (Or.inl rfl)
  rw [h]
  decide

/-! ## Claim about the page-count override -/

/-- Claim C10: an integer override `≥ 1` sets every category's effective
page count to the override; `None`, integers `< 1`, and non-integer values
are silently ignored, leaving every category at its configured default
`[4, 4, 3, 3, 2]`; no override value raises (the functions are total). -/
theorem c10_page_override :
    (∀ n : Int, 1 ≤ n →
      (categoriesToScrape (PyOverride.intV n)).map (fun e => e.2.pages) =
        List.replicate 5 n.toNat) ∧
    (∀ n : Int, n < 1 →
      categoriesToScrape (PyOverride.intV n) = categoriesToScrape PyOverride.noneV) ∧
    categoriesToScrape PyOverride.otherV = categoriesToScrape PyOverride.noneV ∧
    (categoriesToScrape PyOverride.noneV).map (fun e => e.2.pages) = [4, 4, 3, 3, 2] := by
  refine ⟨?_, ?_, rfl, by decide⟩
  · intro n h
    simp [categoriesToScrape, base_categories, h, List.replicate]
  · intro n hn
    simp [categoriesToScrape, base_categories, not_le.mpr hn]

/-- Witness for C10 at a concrete input: override 2 gives every category
two pages. -/
theorem c10_page_override_witness :
    (categoriesToScrape (PyOverride.intV 2)).map (fun e => e.2.pages) =
      List.replicate 5 (2 : Int).toNat :=
  c10_page_override.1 2 (by decide)

/-! ## Loop lemmas for the category page loop -/

theorem catLoopPages_products (fetch : String → Nat → FetchResult)
    (category_key category_name : String) :
    ∀ (pages : List Nat) (st : ScraperState) (catProds : List Product) (lastPage : Nat),
      (catLoopPages fetch category_key category_name pages st catProds lastPage).1.products =
        st.products := by
  intro pages
  induction pages with
  | nil => intro st catProds lastPage; rfl
  | cons p rest ih =>
    intro st catProds lastPage
    cases hf : fetch category_key p with
    | fail =>
      simp only [catLoopPages, hf]
      exact ih _ _ _
    | ok frags =>
      cases frags with
      | nil => simp [catLoopPages, hf]
      | cons f fs =>
        simp only [catLoopPages, hf]
        exact ih _ _ _

theorem catLoopPages_errors_le (fetch : String → Nat → FetchResult)
    (category_key category_name : String) :
    ∀ (pages : List Nat) (st : ScraperState) (catProds : List Product) (lastPage : Nat),
      st.stats.errors ≤
        (catLoopPages fetch category_key category_name pages st catProds lastPage).1.stats.errors := by
  intro pages
  induction pages with
  | nil => intro st catProds lastPage; exact le_refl _
  | cons p rest ih =>
    intro st catProds lastPage
    cases hf : fetch category_key p with
    | fail =>
      simp only [catLoopPages, hf]
      have h2 := ih { st with stats := { st.stats with errors := st.stats.errors + 1 } } catProds p
      exact le_trans (Nat.le_succ _) h2
    | ok frags =>
      cases frags with
      | nil => simp [catLoopPages, hf]
      | cons f fs =>
        simp only [catLoopPages, hf]
        exact ih { st with stats := { st.stats with pages_scraped := st.stats.pages_scraped + 1 } }
          (catProds ++ process_products (f :: fs) category_key category_name st.products.length) p

theorem catLoopPages_catproc (fetch : String → Nat → FetchResult)
    (category_key category_name : String) :
    ∀ (pages : List Nat) (st : ScraperState) (catProds : List Product) (lastPage : Nat),
      (catLoopPages fetch category_key category_name pages st catProds
        lastPage).1.stats.categories_processed = st.stats.categories_processed := by
  intro pages
  induction pages with
  | nil => intro st catProds lastPage; rfl
  | cons p rest ih =>
    intro st catProds lastPage
    cases hf : fetch category_key p with
    | fail =>
      simp only [catLoopPages, hf]
      exact ih _ _ _
    | ok frags =>
      cases frags with
      | nil => simp [catLoopPages, hf]
      | cons f fs =>
        simp only [catLoopPages, hf]
        exact ih _ _ _

/-! ## Claim C9 (category-failure isolation) -/

/-- Claim C9 as amended: when a category's run raises an uncaught failure
(outcome `abort k`), the orchestrator's `except` branch fires — the error
counter passes `st.stats.errors + 1`, `categories_processed` is not
incremented — and the loop proceeds to the remaining categories; but the
records gathered for the failing category are NOT kept: the run's product
collection is exactly as it was before the category started (they lived in
the local `category_products`, and `self.products.extend` on line 182 is
never reached).  Records of categories that complete are unaffected. -/
theorem c9_collection_on_failure (fetch : String → Nat → FetchResult)
    (failure : String → CatOutcome) (category_key : String) (info : CatInfo)
    (rest : List (String × CatInfo)) (st : ScraperState) (k : Nat)
    (h : failure category_key = CatOutcome.abort k) :
    runCategories fetch failure ((category_key, info) :: rest) st =
      runCategories fetch failure rest (afterAbort fetch category_key info st k) ∧
    (afterAbort fetch category_key info st k).products = st.products ∧
    st.stats.errors + 1 ≤ (afterAbort fetch category_key info st k).stats.errors ∧
    (afterAbort fetch category_key info st k).stats.categories_processed =
      st.stats.categories_processed := by
  refine ⟨?_, ?_, ?_, ?_⟩
  · simp only [runCategories, h]
  · exact catLoopPages_products fetch category_key info.name
      (List.range' 1 (min k info.pages)) st [] 0
  · exact Nat.add_le_add_right (catLoopPages_errors_le fetch category_key info.name
      (List.range' 1 (min k info.pages)) st [] 0) 1
  · exact catLoopPages_catproc fetch category_key info.name
      (List.range' 1 (min k info.pages)) st [] 0

/-- Witness for the amended C9 at a concrete input: a single aborting
category leaves the product collection unchanged. -/
theorem c9_collection_on_failure_witness :
    (runCategories (fun _ _ => FetchResult.ok []) (fun _ => CatOutcome.abort 0)
      [(("k"), ⟨"K", 1, 0⟩)] initialState).products = initialState.products := by
  have h := c9_collection_on_failure (fun _ _ => FetchResult.ok []) (fun _ => CatOutcome.abort 0)
    ("k") ⟨"K", 1, 0⟩ [] initialState 0 rfl
  rw [h.1]
  exact h.2.1

/-- A fragment accepted by the builder (price 100). -/
def fragC9 : Fragment := ⟨some ("Alpha"), some ("100"), none, none⟩

/-- Fetch for the C9 counterexample run: the first category's page 1 has
one valid product, everything else is empty. -/
def fetchC9 : String → Nat → FetchResult := fun category_key page =>
  if category_key = "ordinateurs-pc" ∧ page = 1 then FetchResult.ok [fragC9]
  else FetchResult.ok []

/-- Failure injection for the C9 counterexample run: the first category
dies after its one page; the others complete. -/
def failC9 : String → CatOutcome := fun category_key =>
  if category_key = "ordinateurs-pc" then CatOutcome.abort 1 else CatOutcome.normal

/-- The C9 counterexample run (page override 1). -/
def c9run : ScraperState := scrape_all_categories (PyOverride.intV 1) fetchC9 failC9

/-- Counterexample to claim C9 as stated: in `c9run` the failing category
gathered one accepted record on its page 1 (first conjunct), yet the final
run collection is empty — the gathered record did NOT remain — while the
error counter and the category loop behaved as claimed (one error, the
other four categories still processed). -/
theorem c9_counterexample :
    (process_products [fragC9] ("ordinateurs-pc") ("Laptops & Computers") 0).length = 1 ∧
    c9run.products = [] ∧
    c9run.stats.errors = 1 ∧
    c9run.stats.categories_processed = 4 :=
  ⟨by decide, by decide, by decide, by decide⟩

/-! ## Claim C1 (identifier assignment) -/

/-- Fetch for the C1 run: the first category has one accepted product on
page 1 and one on page 2; every other category is empty. -/
def fetchC1 : String → Nat → FetchResult := fun category_key page =>
  if category_key = "ordinateurs-pc" then
    (if page = 1 then FetchResult.ok [⟨some ("Alpha"), some ("100"), none, none⟩]
     else FetchResult.ok [⟨some ("Beta"), some ("200"), none, none⟩])
  else FetchResult.ok []

/-- The C1 run: override of two pages per category, no failures. -/
def c1run : ScraperState := scrape_all_categories (PyOverride.intV 2) fetchC1
  (fun _ => CatOutcome.normal)

/-- Claim C1 evaluated at its failing input: a run that accepts K = 2
records spanning two pages of one category assigns both `JUM_0001` — not
`JUM_0001, JUM_0002` as the claim requires.  `process_products` indexes
with `len(self.products) + len(page_products) + 1`, but `self.products` is
only extended after the whole category (line 182), so every later page of a
category restarts the numbering. -/
theorem c1_duplicate_identifiers :
    c1run.products.length = 2 ∧
    c1run.products.map Product.product_id = ["JUM_0001", "JUM_0001"] :=
  ⟨by decide, by decide⟩

/-! ## Claim C2 (early-stop scenario) -/

/-- Fetch for the C2 scenario: page 1 returns three fragments (two with
parseable non-zero prices, one whose price text cleans to 0.0), page 2
returns none. -/
def fetchC2 : String → Nat → FetchResult := fun _ page =>
  if page = 1 then FetchResult.ok [
    ⟨some ("Alpha"), some ("100 MAD"), none, none⟩,
    ⟨some ("Beta"), some ("5,000 MAD"), none, none⟩,
    ⟨some ("Gamma"), some ("N/A"), none, none⟩]
  else FetchResult.ok []

/-- The C2 scenario: one category configured with 2 pages. -/
def c2run : ScraperState := scrape_category fetchC2 ("gadgets") ⟨"Gadgets", 2, 40⟩ initialState

/-- Claim C2 evaluated on its scenario: the category yields exactly 2
records and the error counter stays 0 as claimed (the zero-fragment page 2
hits the `break`, not an error; the run-level pages-scraped counter is 1),
but the recorded `CategoryResult` carries `pages_scraped = 2` — the Python
loop variable `page_num` at the `break` (line 179) — not the 1 the claim
(and the code's own comment, "last successfully scraped page number")
require. -/
theorem c2_early_stop_behavior :
    c2run.products.length = 2 ∧
    c2run.stats.errors = 0 ∧
    c2run.stats.pages_scraped = 1 ∧
    c2run.categories_scraped = [(("gadgets"), ⟨"Gadgets", 2, 2⟩)] :=
  ⟨by decide, by decide, by decide, by decide⟩
